import Mathlib

/-!
Verification of the Assimilate REST project-explorer workflow
(`src/examples/project-explorer.py`).

The script drives a remote session-oriented REST API through a generated
client.  We embed it shallowly: the remote client is an oracle (`Client`)
assigning to every endpoint either a successful typed response or an
exception; an exception is either an `ApiException` (called `RemoteError`
in the specification) or any other Python exception (`Exc.other`), since
`except ApiException` handlers let other exceptions propagate.  Every
computation runs in the monad `M`, which threads a trace of observable
events: remote calls issued and filesystem writes performed.  The remote
service is modelled as deterministic per call signature within one run.
-/

namespace ProjectExplorer

/-- `ApiException`: status code, reason string, optional raw body. -/
structure RemoteError where
  status : Nat
  reason : String
  body : Option String
deriving DecidableEq

/-- A Python exception: either an `ApiException` or any other exception
(e.g. `AttributeError`, `TypeError`), which `except ApiException` handlers
do not catch. -/
inductive Exc where
  | api : RemoteError → Exc
  | other : String → Exc
deriving DecidableEq

/-- Response of `get_system_properties`. -/
structure SystemInfo where
  system_name : String
  version : String
  build : String
deriving DecidableEq

/-- A project summary (`name`, `modified`). -/
structure Project where
  name : String
  modified : String
deriving DecidableEq

/-- A group: unique id, name, active flag, construct references. -/
structure Group where
  uuid : String
  name : String
  active : Bool
  constructs : List String
deriving DecidableEq

/-- A shot inside a slot.  `uuid` and `name` are accessed directly by the
script; `file`, `length` and `timecode` are read through `safe_get_attr`
with defaults, hence optional here. -/
structure Shot where
  uuid : String
  name : String
  file : Option String
  length : Option Nat
  timecode : Option String
deriving DecidableEq

/-- A slot: an ordered list of shots. -/
structure Slot where
  shots : List Shot
deriving DecidableEq

/-- Construct resolution (`w` × `h`). -/
structure Resolution where
  w : Nat
  h : Nat
deriving DecidableEq

/-- A construct (timeline): name, resolution, fps, ordered slots. -/
structure Construct where
  name : String
  resolution : Option Resolution
  fps : Nat
  slots : List Slot
deriving DecidableEq

/-- The dictionary built per shot by `get_all_shots` (lines 177-206). -/
structure ShotInfo where
  uuid : String
  name : String
  slot_idx : Nat
  version_idx : Nat
  file : String
  length : Nat
  timecode : String
deriving DecidableEq

/-- A render queue item. -/
structure QueueItem where
  name : String
  status : String
  frames_done : Nat
  frames_total : Nat
deriving DecidableEq

/-- The `ImageSnapshot` request body built by `generate_thumbnail`. -/
structure ImageSnapshot where
  uuid : String
  frame : Nat
  proxy : Bool
deriving DecidableEq

/-- The `PlaymodeData` request body built by `set_playback_mode`. -/
structure PlaymodeData where
  mode : String
  loop : String
  audio : String
  speed : Nat
  range : Bool
deriving DecidableEq

/-- The raw (non-preloaded) HTTP response of the snapshot endpoint:
the `Content-Type` header (if any), whether the response object has a
`data` attribute, and the binary payload. -/
structure HttpResponse where
  contentType : Option String
  hasData : Bool
  data : List Nat
deriving DecidableEq

/-- Observable events of a run: every remote call issued and every file
written. -/
inductive Event where
  | callSystemInfo
  | callGetProjects
  | callProjectExit
  | callProjectEnter (name : String)
  | callProjectsCurrent
  | callGetGroups (level : String)
  | callSelectGroup (uuid : String)
  | callConstructsCurrent
  | callRenderSnapshot (snap : ImageSnapshot)
  | callRenderQueue
  | callPlayerEnterTimeline (uuid : String)
  | callPlayerEnterCurrent
  | callSetPlaymode (p : PlaymodeData)
  | fsWrite (path : String) (data : List Nat)
deriving DecidableEq

/-- The remote client oracle: the outcome of each endpoint call, plus the
wall-clock timestamp string produced by `datetime.now().strftime`. -/
structure Client where
  getSystemProperties : Except Exc SystemInfo
  getProjects : Except Exc (List Project)
  doProjectExit : Except Exc Unit
  doProjectEnter : String → Except Exc Unit
  getProjectsCurrent : Except Exc Project
  getGroups : String → Except Exc (List Group)
  selectGroup : String → Except Exc Group
  getConstructsCurrent : Except Exc Construct
  renderSnapshot : ImageSnapshot → Except Exc HttpResponse
  getRenderQueue : Except Exc (List QueueItem)
  playerEnterTimeline : String → Except Exc Unit
  playerEnterCurrent : Except Exc Unit
  setPlaymode : PlaymodeData → Except Exc Unit
  now : String

/-- The workflow monad: a computation producing a value or an uncaught
exception, while appending observable events to the trace. -/
def M (α : Type) : Type := List Event → Except Exc α × List Event

instance : Monad M where
  pure a := fun tr => (Except.ok a, tr)
  bind m f := fun tr =>
    match m tr with
    | (Except.ok a, tr2) => f a tr2
    | (Except.error e, tr2) => (Except.error e, tr2)

/-- Issue a remote call: record the event, return the oracle's outcome. -/
def call (ev : Event) (r : Except Exc α) : M α := fun tr => (r, tr ++ [ev])

/-- Record a non-call event (a filesystem write). -/
def emit (ev : Event) : M Unit := fun tr => (Except.ok Unit.unit, tr ++ [ev])

/-- Raise an exception. -/
def raise (e : Exc) : M α := fun tr => (Except.error e, tr)

/-- `try ... except ApiException as e: h(e)`: other exceptions pass. -/
def catchApi (m : M α) (h : RemoteError → M α) : M α := fun tr =>
  match m tr with
  | (Except.error (Exc.api e), tr2) => h e tr2
  | r => r

/-- `try ... except Exception as e: h(e)`. -/
def catchAll (m : M α) (h : Exc → M α) : M α := fun tr =>
  match m tr with
  | (Except.error e, tr2) => h e tr2
  | r => r

/-- Python truthiness of an optional string: `None` and `""` are falsy. -/
def pyTruthyStr : Option String → Bool
  | none => false
  | some s => !(s == "")

/-- STEP 1 (lines 57-71): `get_system_info` — prints, re-raises on
`ApiException`. -/
def get_system_info (c : Client) : M SystemInfo :=
  catchApi (call Event.callSystemInfo c.getSystemProperties)
    (fun e => raise (Exc.api e))

/-- STEP 2 (lines 76-88): `list_projects` — fails open on `ApiException`. -/
def list_projects (c : Client) : M (List Project) :=
  catchApi (call Event.callGetProjects c.getProjects)
    (fun _ => pure [])

/-- Lines 90-111: `enter_project` — best-effort exit (errors of kind
`ApiException` ignored), then enter, then fetch the current project;
`ApiException` from the latter two is printed and re-raised. -/
def enter_project (c : Client) (project_name : String) : M Project := do
  let _ ← catchApi (call Event.callProjectExit c.doProjectExit)
    (fun _ => pure Unit.unit)
  catchApi
    (do
      let _ ← call (Event.callProjectEnter project_name)
        (c.doProjectEnter project_name)
      call Event.callProjectsCurrent c.getProjectsCurrent)
    (fun e => raise (Exc.api e))

/-- The message of the `AttributeError` raised by the `get_groups` error
handler when `e.body` is `None` (line 133: `e.body.decode('utf-8')`). -/
def attrErrMsg : String := "AttributeError: NoneType has no attribute decode"

/-- STEP 3 (lines 116-135): `get_groups` — on `ApiException` the handler
itself evaluates `json.loads(e.body.decode('utf-8'))` with no `None`
guard, so a body-less error raises an `AttributeError` that the handler
cannot catch; otherwise it logs and returns `[]`.  (Decoding and JSON
parsing of a present body are modelled as total.) -/
def get_groups (c : Client) (detailed : Bool) : M (List Group) :=
  let level := if detailed then "ALL" else ""
  catchApi (call (Event.callGetGroups level) (c.getGroups level))
    (fun e =>
      match e.body with
      | none => raise (Exc.other attrErrMsg)
      | some _ => pure [])

/-- Lines 137-150: `select_group` — prints and re-raises on failure. -/
def select_group (c : Client) (group_uuid : String) : M Group :=
  catchApi (call (Event.callSelectGroup group_uuid) (c.selectGroup group_uuid))
    (fun e => raise (Exc.api e))

/-- STEP 4 (lines 155-175): `get_current_construct` — re-raises. -/
def get_current_construct (c : Client) : M Construct :=
  catchApi (call Event.callConstructsCurrent c.getConstructsCurrent)
    (fun e => raise (Exc.api e))

/-- The `shot_info` dictionary built at lines 185-193, with the
`safe_get_attr` defaults for `file`, `length`, `timecode`. -/
def shotInfoOf (slotIdx versionIdx : Nat) (sh : Shot) : ShotInfo :=
  ⟨sh.uuid, sh.name, slotIdx, versionIdx,
    sh.file.getD "N/A", sh.length.getD 0, sh.timecode.getD "00:00:00:00"⟩

/-- Inner loop of `get_all_shots`: `for version_idx, shot in
enumerate(slot_shots)` starting at `versionIdx`. -/
def flattenInner (slotIdx versionIdx : Nat) : List Shot → List ShotInfo
  | [] => []
  | sh :: rest => shotInfoOf slotIdx versionIdx sh ::
      flattenInner slotIdx (versionIdx + 1) rest

/-- Outer loop of `get_all_shots`: `for slot_idx, slot in
enumerate(slots)` starting at `slotIdx`. -/
def flattenOuter (slotIdx : Nat) : List Slot → List ShotInfo
  | [] => []
  | s :: rest => flattenInner slotIdx 0 s.shots ++ flattenOuter (slotIdx + 1) rest

/-- The full slots × shots flattening of `get_all_shots`. -/
def flattenShots (slots : List Slot) : List ShotInfo := flattenOuter 0 slots

/-- Lines 177-206: `get_all_shots` — refetches the current construct,
flattens all slots × shots; fails open on `ApiException`. -/
def get_all_shots (c : Client) : M (List ShotInfo) :=
  catchApi
    (do
      let construct ← call Event.callConstructsCurrent c.getConstructsCurrent
      pure (flattenShots construct.slots))
    (fun _ => pure [])

/-- The default output path of `generate_thumbnail` (lines 210-212):
`/tmp/thumbnail_{uuid[:8]}_{timestamp}.jpg`. -/
def thumbDefaultPath (shot_uuid now : String) : String :=
  "/tmp/thumbnail_" ++ shot_uuid.take 8 ++ "_" ++ now ++ ".jpg"

/-- Lines 208-239: `generate_thumbnail` — requests a snapshot; writes the
payload only when the response declares `Content-Type: image/jpeg` and
carries a `data` attribute; returns the output path on any successful
response, or `None` (the failure marker) on `ApiException`. -/
def generate_thumbnail (c : Client) (shot_uuid : String) (frame : Nat)
    (output_path : Option String) : M (Option String) :=
  let path := match output_path with
    | none => thumbDefaultPath shot_uuid c.now
    | some p => p
  catchApi
    (do
      let response ← call (Event.callRenderSnapshot ⟨shot_uuid, frame, true⟩)
        (c.renderSnapshot ⟨shot_uuid, frame, true⟩)
      if response.contentType = some "image/jpeg" then
        if response.hasData then do
          let _ ← emit (Event.fsWrite path response.data)
          pure (some path)
        else pure (some path)
      else pure (some path))
    (fun _ => pure none)

/-- STEP 5 (lines 244-270): `get_render_queue` — fails open. -/
def get_render_queue (c : Client) : M (List QueueItem) :=
  catchApi
    (do
      let queue ← call Event.callRenderQueue c.getRenderQueue
      if queue.isEmpty then pure [] else pure queue)
    (fun _ => pure [])

/-- STEP 6 (lines 319-327): `enter_player` — current-timeline variant when
no construct uuid is given; re-raises. -/
def enter_player (c : Client) (construct_uuid : Option String) : M Unit :=
  catchApi
    (match construct_uuid with
      | some u => call (Event.callPlayerEnterTimeline u) (c.playerEnterTimeline u)
      | none => call Event.callPlayerEnterCurrent c.playerEnterCurrent)
    (fun e => raise (Exc.api e))

/-- Lines 329-342: `set_playback_mode` — builds `PlaymodeData` with the
fixed fields `audio="ON"`, `speed=1`, `range=False`; re-raises.  (The
`frame` parameter of the Python function is never used and is omitted.) -/
def set_playback_mode (c : Client) (mode : String) (loop : String) : M Unit :=
  catchApi
    (call (Event.callSetPlaymode ⟨mode, loop, "ON", 1, false⟩)
      (c.setPlaymode ⟨mode, loop, "ON", 1, false⟩))
    (fun e => raise (Exc.api e))

/-- The per-shot thumbnail path of the pipeline (line 407):
`/tmp/project_thumb_{i}_{uuid[:8]}.jpg` — loop index, no timestamp. -/
def thumbLoopPath (i : Nat) (shot_uuid : String) : String :=
  "/tmp/project_thumb_" ++ toString i ++ "_" ++ shot_uuid.take 8 ++ ".jpg"

/-- The thumbnail loop of the pipeline (lines 404-411):
`for i, shot in enumerate(shots[:5])`, collecting truthy results. -/
def thumb_loop (c : Client) : List ShotInfo → Nat → M (List String)
  | [], _ => pure []
  | shot :: rest, i => do
      let result ← generate_thumbnail c shot.uuid 0
        (some (thumbLoopPath i shot.uuid))
      let more ← thumb_loop c rest (i + 1)
      match result with
      | some p => if p == "" then pure more else pure (p :: more)
      | none => pure more

/-- The target-group selection of the pipeline (lines 381-390): a truthy
(non-`None`, non-empty) `target_group_name` selects the first exact name
match; otherwise the last group. -/
def targetOf (groups : List Group) (target_group_name : Option String) : Option Group :=
  if pyTruthyStr target_group_name then
    groups.find? (fun g => g.name == target_group_name.getD "")
  else groups.getLast?

/-- The playback configuration pushed at the end of a successful run
(lines 417-419 with the fixed fields of lines 331-337). -/
def playFrwLoop : PlaymodeData := ⟨"PLAY_FRW", "LOOP", "ON", 1, false⟩

/-- Modelled from the spec: the playmode enum of the generated client
library is not under `src/`; per the specification, reverse-frame
playback corresponds to the mode string `"PLAY_FRW"`. -/
def reverseFramePlaybackMode : String := "PLAY_FRW"

/-- Steps 5-10 of the pipeline after the target group is determined
(lines 392-421): select group, fetch construct, collect shots, thumbnail
loop, render queue, player, playback mode. -/
def stepSelectOn (c : Client) (tg : Group) : M Bool := do
  let _ ← select_group c tg.uuid
  let _ ← get_current_construct c
  let shots ← get_all_shots c
  if shots.isEmpty then pure false
  else do
    let _ ← thumb_loop c (shots.take 5) 0
    let _ ← get_render_queue c
    let _ ← enter_player c none
    let _ ← set_playback_mode c "PLAY_FRW" "LOOP"
    pure true

/-- Steps 3-4 of the pipeline (lines 379-390): fetch the groups, abort on
an empty list, determine the target group, abort when none is found. -/
def stepGroupsOn (c : Client) (target_group_name : Option String) : M Bool := do
  let groups ← get_groups c true
  if groups.isEmpty then pure false
  else
    match targetOf groups target_group_name with
    | none => pure false
    | some tg => stepSelectOn c tg

/-- The body of `browse_project` (lines 376-432), without the surrounding
exception handlers. -/
def browse_project_body (c : Client) (project_name : String)
    (target_group_name : Option String) : M Bool := do
  let _ ← get_system_info c
  let _ ← enter_project c project_name
  stepGroupsOn c target_group_name

/-- Lines 362-443: `browse_project` — the body wrapped in the two
trailing handlers (`except ApiException` and `except Exception`), both of
which print diagnostics and return `False`. -/
def browse_project (c : Client) (project_name : String)
    (target_group_name : Option String) : M Bool :=
  catchAll (browse_project_body c project_name target_group_name)
    (fun _ => pure false)

/-! ### Run lemmas: how each operation evaluates on a trace -/

variable {α β : Type}

theorem pure_app (a : α) (tr : List Event) : (pure a : M α) tr = (Except.ok a, tr) := rfl

theorem bind_app (m : M α) (f : α → M β) (tr : List Event) :
    (m >>= f) tr =
      match m tr with
      | (Except.ok a, tr2) => f a tr2
      | (Except.error e, tr2) => (Except.error e, tr2) := rfl

theorem get_system_info_run (c : Client) (tr : List Event) :
    get_system_info c tr = (c.getSystemProperties, tr ++ [Event.callSystemInfo]) := by
  unfold get_system_info catchApi call raise
  rcases c.getSystemProperties with e | si
  · cases e <;> rfl
  · rfl

theorem select_group_run (c : Client) (u : String) (tr : List Event) :
    select_group c u tr = (c.selectGroup u, tr ++ [Event.callSelectGroup u]) := by
  unfold select_group catchApi call raise
  rcases c.selectGroup u with e | g
  · cases e <;> rfl
  · rfl

theorem get_current_construct_run (c : Client) (tr : List Event) :
    get_current_construct c tr =
      (c.getConstructsCurrent, tr ++ [Event.callConstructsCurrent]) := by
  unfold get_current_construct catchApi call raise
  rcases c.getConstructsCurrent with e | con
  · cases e <;> rfl
  · rfl

theorem enter_player_none_run (c : Client) (tr : List Event) :
    enter_player c none tr = (c.playerEnterCurrent, tr ++ [Event.callPlayerEnterCurrent]) := by
  unfold enter_player catchApi call raise
  rcases c.playerEnterCurrent with e | u
  · cases e <;> rfl
  · rfl

theorem set_playback_mode_run (c : Client) (mode loop : String) (tr : List Event) :
    set_playback_mode c mode loop tr =
      (c.setPlaymode ⟨mode, loop, "ON", 1, false⟩,
        tr ++ [Event.callSetPlaymode ⟨mode, loop, "ON", 1, false⟩]) := by
  unfold set_playback_mode catchApi call raise
  rcases c.setPlaymode ⟨mode, loop, "ON", 1, false⟩ with e | u
  · cases e <;> rfl
  · rfl

/-- The overall outcome of `enter_project` when the best-effort exit does
not raise a non-`ApiException`. -/
def enterProjectRes (c : Client) (pn : String) : Except Exc Project :=
  match c.doProjectEnter pn with
  | Except.ok _ => c.getProjectsCurrent
  | Except.error e => Except.error e

/-- The events issued by `enter_project` (exit outcome benign). -/
def enterProjectTrace (c : Client) (pn : String) : List Event :=
  match c.doProjectEnter pn with
  | Except.ok _ => [Event.callProjectExit, Event.callProjectEnter pn, Event.callProjectsCurrent]
  | Except.error _ => [Event.callProjectExit, Event.callProjectEnter pn]

theorem enter_project_run (c : Client) (pn : String)
    (hx : c.doProjectExit = Except.ok Unit.unit ∨
      ∃ e2, c.doProjectExit = Except.error (Exc.api e2)) (tr : List Event) :
    enter_project c pn tr = (enterProjectRes c pn, tr ++ enterProjectTrace c pn) := by
  unfold enter_project enterProjectRes enterProjectTrace catchApi call raise
  rcases h : c.doProjectEnter pn with e | u
  · rcases hx with hx | ⟨e2, hx⟩ <;>
      cases e <;>
      · rcases hc : c.getProjectsCurrent with e3 | p <;>
          simp [bind_app, hx, h, pure_app, List.append_assoc]
  · rcases hx with hx | ⟨e2, hx⟩ <;>
      rcases hc : c.getProjectsCurrent with e3 | p <;>
      first
      | (cases e3 <;> simp [bind_app, hx, h, hc, pure_app, List.append_assoc])
      | simp [bind_app, hx, h, hc, pure_app, List.append_assoc]

/-- The outcome of `get_groups`: success passes through, an
`ApiException` with a body fails open, a body-less one raises an
`AttributeError` in the handler. -/
def getGroupsRes (c : Client) (level : String) : Except Exc (List Group) :=
  match c.getGroups level with
  | Except.ok gs => Except.ok gs
  | Except.error (Exc.api e) =>
      match e.body with
      | none => Except.error (Exc.other attrErrMsg)
      | some _ => Except.ok []
  | Except.error (Exc.other m) => Except.error (Exc.other m)

theorem get_groups_run (c : Client) (detailed : Bool) (tr : List Event) :
    get_groups c detailed tr =
      (getGroupsRes c (if detailed then "ALL" else ""),
        tr ++ [Event.callGetGroups (if detailed then "ALL" else "")]) := by
  unfold get_groups getGroupsRes catchApi call raise
  rcases h : c.getGroups (if detailed then "ALL" else "") with e | gs
  · cases e with
    | api e2 => rcases hb : e2.body with _ | b <;> simp [h, hb, pure_app]
    | other m => simp [h]
  · simp [h]

/-- The outcome of `get_all_shots`. -/
def getAllShotsRes (c : Client) : Except Exc (List ShotInfo) :=
  match c.getConstructsCurrent with
  | Except.ok con => Except.ok (flattenShots con.slots)
  | Except.error (Exc.api _) => Except.ok []
  | Except.error (Exc.other m) => Except.error (Exc.other m)

theorem get_all_shots_run (c : Client) (tr : List Event) :
    get_all_shots c tr = (getAllShotsRes c, tr ++ [Event.callConstructsCurrent]) := by
  unfold get_all_shots getAllShotsRes catchApi call
  rcases h : c.getConstructsCurrent with e | con
  · cases e <;> simp [h, bind_app, pure_app]
  · simp [h, bind_app, pure_app]

/-- The outcome of `get_render_queue`. -/
def getRenderQueueRes (c : Client) : Except Exc (List QueueItem) :=
  match c.getRenderQueue with
  | Except.ok q => Except.ok q
  | Except.error (Exc.api _) => Except.ok []
  | Except.error (Exc.other m) => Except.error (Exc.other m)

theorem get_render_queue_run (c : Client) (tr : List Event) :
    get_render_queue c tr = (getRenderQueueRes c, tr ++ [Event.callRenderQueue]) := by
  unfold get_render_queue getRenderQueueRes catchApi call
  rcases h : c.getRenderQueue with e | q
  · cases e <;> simp [h, bind_app, pure_app]
  · cases q <;> simp [h, bind_app, pure_app]

/-- The output path actually used by `generate_thumbnail`. -/
def resolvedThumbPath (c : Client) (shot_uuid : String)
    (output_path : Option String) : String :=
  match output_path with
  | none => thumbDefaultPath shot_uuid c.now
  | some p => p

/-- The outcome of `generate_thumbnail`: the output path on any
successful response, the failure marker on `ApiException`. -/
def genThumbRes (c : Client) (shot_uuid : String) (frame : Nat)
    (output_path : Option String) : Except Exc (Option String) :=
  match c.renderSnapshot ⟨shot_uuid, frame, true⟩ with
  | Except.ok _ => Except.ok (some (resolvedThumbPath c shot_uuid output_path))
  | Except.error (Exc.api _) => Except.ok none
  | Except.error (Exc.other m) => Except.error (Exc.other m)

/-- The events of `generate_thumbnail`: the snapshot call, plus a file
write exactly when the response declares `image/jpeg` and has data. -/
def genThumbTrace (c : Client) (shot_uuid : String) (frame : Nat)
    (output_path : Option String) : List Event :=
  match c.renderSnapshot ⟨shot_uuid, frame, true⟩ with
  | Except.ok r =>
      if r.contentType = some "image/jpeg" then
        if r.hasData then
          [Event.callRenderSnapshot ⟨shot_uuid, frame, true⟩,
            Event.fsWrite (resolvedThumbPath c shot_uuid output_path) r.data]
        else [Event.callRenderSnapshot ⟨shot_uuid, frame, true⟩]
      else [Event.callRenderSnapshot ⟨shot_uuid, frame, true⟩]
  | Except.error _ => [Event.callRenderSnapshot ⟨shot_uuid, frame, true⟩]

theorem generate_thumbnail_run (c : Client) (u : String) (frame : Nat)
    (po : Option String) (tr : List Event) :
    generate_thumbnail c u frame po tr =
      (genThumbRes c u frame po, tr ++ genThumbTrace c u frame po) := by
  unfold generate_thumbnail genThumbRes genThumbTrace resolvedThumbPath catchApi call emit
  rcases h : c.renderSnapshot ⟨u, frame, true⟩ with e | r
  · cases e <;> cases po <;> simp [h, bind_app, pure_app]
  · by_cases hct : r.contentType = some "image/jpeg" <;>
      cases hd : r.hasData <;>
      cases po <;>
      simp [h, hct, hd, bind_app, pure_app, List.append_assoc]

/-! ### Structure of the slots × shots flattening (claim C1) -/

theorem flattenInner_length (i j : Nat) (shots : List Shot) :
    (flattenInner i j shots).length = shots.length := by
  induction shots generalizing j with
  | nil => rfl
  | cons sh rest ih => simp [flattenInner, ih]

theorem flattenOuter_length (i : Nat) (slots : List Slot) :
    (flattenOuter i slots).length = (slots.map (fun s => s.shots.length)).sum := by
  induction slots generalizing i with
  | nil => rfl
  | cons s rest ih => simp [flattenOuter, flattenInner_length, ih]

theorem flattenInner_mem (i j : Nat) (shots : List Shot) (si : ShotInfo)
    (h : si ∈ flattenInner i j shots) :
    si.slot_idx = i ∧ j ≤ si.version_idx ∧
      ∃ sh, shots[si.version_idx - j]? = some sh ∧
        si = shotInfoOf i si.version_idx sh := by
  induction shots generalizing j with
  | nil => simp [flattenInner] at h
  | cons sh rest ih =>
    simp only [flattenInner, List.mem_cons] at h
    rcases h with h | h
    · subst h
      refine ⟨rfl, Nat.le_refl j, sh, ?_, rfl⟩
      simp [shotInfoOf]
    · obtain ⟨h1, h2, sh2, h3, h4⟩ := ih (j + 1) h
      refine ⟨h1, Nat.le_of_succ_le h2, sh2, ?_, h4⟩
      have hv : si.version_idx - j = (si.version_idx - (j + 1)) + 1 := by omega
      rw [hv]
      simpa using h3

theorem flattenOuter_mem (i : Nat) (slots : List Slot) (si : ShotInfo)
    (h : si ∈ flattenOuter i slots) :
    i ≤ si.slot_idx ∧
      ∃ sl sh, slots[si.slot_idx - i]? = some sl ∧
        sl.shots[si.version_idx]? = some sh ∧
        si = shotInfoOf si.slot_idx si.version_idx sh := by
  induction slots generalizing i with
  | nil => simp [flattenOuter] at h
  | cons s rest ih =>
    simp only [flattenOuter, List.mem_append] at h
    rcases h with h | h
    · obtain ⟨h1, _, sh, h3, h4⟩ := flattenInner_mem i 0 s.shots si h
      have hz : si.slot_idx - i = 0 := by omega
      refine ⟨Nat.le_of_eq h1.symm, s, sh, ?_, ?_, ?_⟩
      · rw [hz]; simp
      · simpa using h3
      · rw [h1]; exact h4
    · obtain ⟨h1, sl, sh, h3, h4, h5⟩ := ih (i + 1) h
      refine ⟨by omega, sl, sh, ?_, h4, h5⟩
      have hv : si.slot_idx - i = (si.slot_idx - (i + 1)) + 1 := by omega
      rw [hv]
      simpa using h3

theorem flattenInner_tags (i j : Nat) (shots : List Shot) :
    (flattenInner i j shots).map (fun si => (si.slot_idx, si.version_idx)) =
      (List.range' j shots.length).map (fun v => (i, v)) := by
  induction shots generalizing j with
  | nil => rfl
  | cons sh rest ih =>
    simp only [flattenInner, List.map_cons, List.length_cons, List.range'_succ]
    rw [ih]
    rfl

theorem flattenOuter_tags_nodup (i : Nat) (slots : List Slot) :
    ((flattenOuter i slots).map (fun si => (si.slot_idx, si.version_idx))).Nodup := by
  induction slots generalizing i with
  | nil => simp [flattenOuter]
  | cons s rest ih =>
    simp only [flattenOuter, List.map_append]
    refine List.Nodup.append ?_ (ih (i + 1)) ?_
    · rw [flattenInner_tags]
      refine List.Nodup.map ?_ (List.nodup_range' 0 s.shots.length 1 (by omega))
      intro a b hab
      simpa using congrArg Prod.snd hab
    · intro t ht1 ht2
      rw [flattenInner_tags] at ht1
      obtain ⟨v, _, hv⟩ := List.mem_map.mp ht1
      obtain ⟨si, hsi, hsit⟩ := List.mem_map.mp ht2
      have hge := (flattenOuter_mem (i + 1) rest si hsi).1
      rw [← hsit] at hv
      have : si.slot_idx = i := (Prod.mk.injEq _ _ _ _).mp hv.symm |>.1
      omega

/-- C1: for every construct, `getAllShots` returns a sequence whose
length is the sum over all slots of that slot's shot count, whose
(slot index, version index) tags are pairwise distinct, and whose every
entry is built from exactly the shot sitting at its tagged position. -/
theorem C1_getAllShots (c : Client) (con : Construct)
    (h : c.getConstructsCurrent = Except.ok con) (tr : List Event) :
    get_all_shots c tr =
      (Except.ok (flattenShots con.slots), tr ++ [Event.callConstructsCurrent]) ∧
    (flattenShots con.slots).length = (con.slots.map (fun s => s.shots.length)).sum ∧
    ((flattenShots con.slots).map (fun si => (si.slot_idx, si.version_idx))).Nodup ∧
    ∀ si ∈ flattenShots con.slots, ∃ sl sh,
      con.slots[si.slot_idx]? = some sl ∧ sl.shots[si.version_idx]? = some sh ∧
      si = shotInfoOf si.slot_idx si.version_idx sh := by
  refine ⟨?_, flattenOuter_length 0 con.slots, flattenOuter_tags_nodup 0 con.slots, ?_⟩
  · rw [get_all_shots_run]
    unfold getAllShotsRes
    rw [h]
  · intro si hsi
    obtain ⟨_, sl, sh, h3, h4, h5⟩ := flattenOuter_mem 0 con.slots si hsi
    exact ⟨sl, sh, by simpa using h3, h4, h5⟩

/-- A construct with two slots holding 2 and 1 shots, for the C1 witness. -/
def conC1 : Construct :=
  ⟨"timeline", none, 24,
    [⟨[⟨"u1", "s1", none, none, none⟩, ⟨"u2", "s2", some "f", some 10, none⟩]⟩,
      ⟨[⟨"u3", "s3", none, none, some "tc"⟩]⟩]⟩

/-- A remote client whose every call succeeds, current construct `conC1`. -/
def cC1 : Client :=
  ⟨Except.ok ⟨"S", "1", "2"⟩, Except.ok [], Except.ok Unit.unit,
    fun _ => Except.ok Unit.unit, Except.ok ⟨"P", "m"⟩, fun _ => Except.ok [],
    fun _ => Except.ok ⟨"g", "G", true, []⟩, Except.ok conC1,
    fun _ => Except.ok ⟨some "image/jpeg", true, [1]⟩, Except.ok [],
    fun _ => Except.ok Unit.unit, Except.ok Unit.unit,
    fun _ => Except.ok Unit.unit, "20250101_000000"⟩

theorem C1_getAllShots_witness :
    get_all_shots cC1 [] =
      (Except.ok (flattenShots conC1.slots), [Event.callConstructsCurrent]) ∧
    (flattenShots conC1.slots).length = 3 ∧
    ((flattenShots conC1.slots).map (fun si => (si.slot_idx, si.version_idx))).Nodup := by
  have h := C1_getAllShots cC1 conC1 rfl []
  exact ⟨h.1, by decide, h.2.2.1⟩

/-! ### The thumbnail loop: traces, writes and snapshot calls -/

/-- Recognizer for snapshot-request events. -/
def isSnapshotCall : Event → Bool
  | Event.callRenderSnapshot _ => true
  | _ => false

theorem genThumbTrace_mem (c : Client) (u : String) (frame : Nat)
    (po : Option String) (ev : Event) (hev : ev ∈ genThumbTrace c u frame po) :
    (∃ s, ev = Event.callRenderSnapshot s) ∨
      ∃ d, ev = Event.fsWrite (resolvedThumbPath c u po) d := by
  unfold genThumbTrace at hev
  rcases h : c.renderSnapshot ⟨u, frame, true⟩ with e | r <;> rw [h] at hev
  · simp at hev
    exact Or.inl ⟨_, hev⟩
  · by_cases hct : r.contentType = some "image/jpeg"
    · cases hd : r.hasData <;> simp [hct, hd] at hev
      · exact Or.inl ⟨_, hev⟩
      · rcases hev with hev | hev
        · exact Or.inl ⟨_, hev⟩
        · exact Or.inr ⟨_, hev⟩
    · simp [hct] at hev
      exact Or.inl ⟨_, hev⟩

theorem genThumbTrace_filter (c : Client) (u : String) (frame : Nat)
    (po : Option String) :
    (genThumbTrace c u frame po).filter isSnapshotCall =
      [Event.callRenderSnapshot ⟨u, frame, true⟩] := by
  unfold genThumbTrace
  rcases h : c.renderSnapshot ⟨u, frame, true⟩ with e | r
  · simp [isSnapshotCall]
  · by_cases hct : r.contentType = some "image/jpeg" <;>
      cases hd : r.hasData <;>
      simp [hct, hd, isSnapshotCall]

/-- Decomposition of a thumbnail-loop run: the loop only appends events,
and every appended event is a snapshot request or a write at the
pipeline path of the shot it belongs to. -/
theorem thumb_loop_events (c : Client) (shots : List ShotInfo) (i : Nat)
    (tr : List Event) :
    ∃ res ex, thumb_loop c shots i tr = (res, tr ++ ex) ∧
      ∀ ev ∈ ex, (∃ s, ev = Event.callRenderSnapshot s) ∨
        ∃ k sh d, shots[k]? = some sh ∧
          ev = Event.fsWrite (thumbLoopPath (i + k) sh.uuid) d := by
  induction shots generalizing i tr with
  | nil => exact ⟨Except.ok [], [], by simp [thumb_loop, pure_app], by simp⟩
  | cons shot rest ih =>
    obtain ⟨res2, ex2, hrun2, hev2⟩ := ih (i + 1)
      (tr ++ genThumbTrace c shot.uuid 0 (some (thumbLoopPath i shot.uuid)))
    have hmem : ∀ ev ∈ genThumbTrace c shot.uuid 0 (some (thumbLoopPath i shot.uuid)) ++ ex2,
        (∃ s, ev = Event.callRenderSnapshot s) ∨
        ∃ k sh d, (shot :: rest)[k]? = some sh ∧
          ev = Event.fsWrite (thumbLoopPath (i + k) sh.uuid) d := by
      intro ev hev
      rcases List.mem_append.mp hev with hev | hev
      · rcases genThumbTrace_mem c shot.uuid 0 _ ev hev with h | ⟨d, h⟩
        · exact Or.inl h
        · refine Or.inr ⟨0, shot, d, by simp, ?_⟩
          simpa [resolvedThumbPath] using h
      · rcases hev2 ev hev with h | ⟨k, sh, d, hk, h⟩
        · exact Or.inl h
        · refine Or.inr ⟨k + 1, sh, d, by simpa using hk, ?_⟩
          have heq : i + 1 + k = i + (k + 1) := by omega
          rw [heq] at h
          exact h
    cases hres : genThumbRes c shot.uuid 0 (some (thumbLoopPath i shot.uuid)) with
    | error e =>
      refine ⟨Except.error e,
        genThumbTrace c shot.uuid 0 (some (thumbLoopPath i shot.uuid)), ?_, ?_⟩
      · simp [thumb_loop, bind_app, generate_thumbnail_run, hres]
      · intro ev hev
        exact hmem ev (List.mem_append.mpr (Or.inl hev))
    | ok opt =>
      cases res2 with
      | error e2 =>
        refine ⟨Except.error e2,
          genThumbTrace c shot.uuid 0 (some (thumbLoopPath i shot.uuid)) ++ ex2,
          ?_, hmem⟩
        simp [thumb_loop, bind_app, generate_thumbnail_run, hres, hrun2,
          List.append_assoc]
      | ok more =>
        refine ⟨Except.ok (match opt with
            | some p => if p == "" then more else p :: more
            | none => more),
          genThumbTrace c shot.uuid 0 (some (thumbLoopPath i shot.uuid)) ++ ex2,
          ?_, hmem⟩
        rcases opt with _ | p
        · simp [thumb_loop, bind_app, generate_thumbnail_run, hres, hrun2, pure_app,
            List.append_assoc]
        · by_cases hp : p = "" <;>
            simp [thumb_loop, bind_app, generate_thumbnail_run, hres, hrun2, pure_app,
              hp, List.append_assoc]

/-- When the snapshot endpoint never raises a non-`ApiException`, the
loop completes and issues exactly one snapshot request per shot given to
it, in order. -/
theorem thumb_loop_snapshots (c : Client)
    (hs : ∀ s m, c.renderSnapshot s ≠ Except.error (Exc.other m)) :
    ∀ (shots : List ShotInfo) (i : Nat) (tr : List Event), ∃ out ex,
      thumb_loop c shots i tr = (Except.ok out, tr ++ ex) ∧
      ex.filter isSnapshotCall =
        shots.map (fun sh => Event.callRenderSnapshot ⟨sh.uuid, 0, true⟩) := by
  intro shots
  induction shots with
  | nil => exact fun i tr => ⟨[], [], by simp [thumb_loop, pure_app], by simp⟩
  | cons shot rest ih =>
    intro i tr
    obtain ⟨out2, ex2, hrun2, hfil2⟩ := ih (i + 1)
      (tr ++ genThumbTrace c shot.uuid 0 (some (thumbLoopPath i shot.uuid)))
    have hok : ∃ opt, genThumbRes c shot.uuid 0 (some (thumbLoopPath i shot.uuid)) =
        Except.ok opt := by
      unfold genThumbRes
      rcases h : c.renderSnapshot ⟨shot.uuid, 0, true⟩ with e | r
      · cases e with
        | api e2 => exact ⟨none, rfl⟩
        | other m => exact absurd h (hs _ m)
      · exact ⟨_, rfl⟩
    obtain ⟨opt, hres⟩ := hok
    refine ⟨(match opt with
        | some p => if p == "" then out2 else p :: out2
        | none => out2),
      genThumbTrace c shot.uuid 0 (some (thumbLoopPath i shot.uuid)) ++ ex2, ?_, ?_⟩
    · rcases opt with _ | p
      · simp [thumb_loop, bind_app, generate_thumbnail_run, hres, hrun2, pure_app,
          List.append_assoc]
      · by_cases hp : p = "" <;>
          simp [thumb_loop, bind_app, generate_thumbnail_run, hres, hrun2, pure_app,
            hp, List.append_assoc]
    · simp [List.filter_append, genThumbTrace_filter, hfil2]

/-! ### Pipeline-level lemmas -/

/-- The shots the pipeline works on, as a function of the oracle. -/
def shotsFromClient (c : Client) : List ShotInfo :=
  match c.getConstructsCurrent with
  | Except.ok con => flattenShots con.slots
  | Except.error _ => []

/-- The surrounding handlers of `browse_project` never drop or add trace
events. -/
theorem browse_trace_eq (c : Client) (pn : String) (tgn : Option String)
    (tr : List Event) :
    (browse_project c pn tgn tr).2 = (browse_project_body c pn tgn tr).2 := by
  unfold browse_project catchAll
  rcases h : browse_project_body c pn tgn tr with ⟨r, tr2⟩
  cases r with
  | error e => cases e <;> simp [pure_app]
  | ok b => simp

/-- `browse_project` reports `True` exactly when its body does. -/
theorem browse_ok_true (c : Client) (pn : String) (tgn : Option String)
    (tr : List Event) :
    (browse_project c pn tgn tr).1 = Except.ok true ↔
      (browse_project_body c pn tgn tr).1 = Except.ok true := by
  unfold browse_project catchAll
  rcases h : browse_project_body c pn tgn tr with ⟨r, tr2⟩
  cases r with
  | error e => cases e <;> simp [pure_app]
  | ok b => simp

/-- Happy path through steps 1-4: with system info, project entry,
current-project fetch and group listing all succeeding, a non-empty group
list and a determined target, the body reduces to the post-selection
computation. -/
theorem browse_to_selection (c : Client) (pn : String) (tgn : Option String)
    (si : SystemInfo) (pr : Project) (groups : List Group) (tg : Group)
    (h1 : c.getSystemProperties = Except.ok si)
    (h2 : c.doProjectExit = Except.ok Unit.unit ∨
      ∃ e2, c.doProjectExit = Except.error (Exc.api e2))
    (h3 : c.doProjectEnter pn = Except.ok Unit.unit)
    (h4 : c.getProjectsCurrent = Except.ok pr)
    (h5 : c.getGroups "ALL" = Except.ok groups)
    (h6 : groups.isEmpty = false)
    (h7 : targetOf groups tgn = some tg) (tr : List Event) :
    browse_project_body c pn tgn tr =
      stepSelectOn c tg (tr ++ [Event.callSystemInfo, Event.callProjectExit,
        Event.callProjectEnter pn, Event.callProjectsCurrent,
        Event.callGetGroups "ALL"]) := by
  have h6' : ¬ groups = [] := by
    intro hg
    subst hg
    simp at h6
  unfold browse_project_body stepGroupsOn
  simp [bind_app, get_system_info_run, h1, enter_project_run c pn h2,
    enterProjectRes, enterProjectTrace, h3, h4, get_groups_run, getGroupsRes,
    h5, h6, h6', h7, List.append_assoc]

/-- The event kinds the post-selection pipeline may append: the one
selection call, construct fetches, snapshot requests, loop-path writes,
the render-queue call, the player call and the playmode push. -/
def stepEventOk (c : Client) (tg : Group) (ev : Event) : Prop :=
  ev = Event.callSelectGroup tg.uuid ∨
  ev = Event.callConstructsCurrent ∨
  (∃ s, ev = Event.callRenderSnapshot s) ∨
  (∃ k sh d, ((shotsFromClient c).take 5)[k]? = some sh ∧
    ev = Event.fsWrite (thumbLoopPath k sh.uuid) d) ∨
  ev = Event.callRenderQueue ∨
  ev = Event.callPlayerEnterCurrent ∨
  ev = Event.callSetPlaymode playFrwLoop

theorem stepEventOk_append (c : Client) (tg : Group) (l1 l2 : List Event)
    (p1 : ∀ ev ∈ l1, stepEventOk c tg ev) (p2 : ∀ ev ∈ l2, stepEventOk c tg ev) :
    ∀ ev ∈ l1 ++ l2, stepEventOk c tg ev := by
  intro ev hev
  rcases List.mem_append.mp hev with h | h
  exacts [p1 ev h, p2 ev h]

/-- Master decomposition of the post-selection pipeline: it only appends
events of the allowed kinds, and succeeds with `True` only by ending with
the player call followed by the playmode push. -/
theorem stepSelectOn_events (c : Client) (tg : Group) (tr : List Event) :
    ∃ res ex, stepSelectOn c tg tr = (res, tr ++ ex) ∧
      Event.callSelectGroup tg.uuid ∈ ex ∧
      (∀ ev ∈ ex, stepEventOk c tg ev) ∧
      (res = Except.ok true →
        ∃ pre, ex = pre ++ [Event.callPlayerEnterCurrent,
          Event.callSetPlaymode playFrwLoop]) := by
  rcases hsel : c.selectGroup tg.uuid with e | g
  · refine ⟨Except.error e, [Event.callSelectGroup tg.uuid], ?_, by simp, ?_, ?_⟩
    · simp [stepSelectOn, bind_app, select_group_run, hsel]
    · intro ev hev
      fin_cases hev <;> simp [stepEventOk]
    · intro h
      exact absurd h (by simp)
  rcases hcc : c.getConstructsCurrent with e2 | con
  · refine ⟨Except.error e2,
      [Event.callSelectGroup tg.uuid, Event.callConstructsCurrent], ?_, by simp, ?_, ?_⟩
    · simp [stepSelectOn, bind_app, select_group_run, hsel,
        get_current_construct_run, hcc, List.append_assoc]
    · intro ev hev
      fin_cases hev <;> simp [stepEventOk]
    · intro h
      exact absurd h (by simp)
  have hsfc : shotsFromClient c = flattenShots con.slots := by
    unfold shotsFromClient
    rw [hcc]
  by_cases hemp : flattenShots con.slots = []
  · refine ⟨Except.ok false, [Event.callSelectGroup tg.uuid,
      Event.callConstructsCurrent, Event.callConstructsCurrent], ?_, by simp, ?_, ?_⟩
    · simp [stepSelectOn, bind_app, select_group_run, hsel,
        get_current_construct_run, hcc, get_all_shots_run, getAllShotsRes,
        hemp, pure_app, List.append_assoc]
    · intro ev hev
      fin_cases hev <;> simp [stepEventOk]
    · intro h
      exact absurd h (by simp)
  obtain ⟨res1, ex1, hrun1, hev1⟩ := thumb_loop_events c
    ((flattenShots con.slots).take 5) 0
    (tr ++ [Event.callSelectGroup tg.uuid, Event.callConstructsCurrent,
      Event.callConstructsCurrent])
  have hmem1 : ∀ ev ∈ ex1, stepEventOk c tg ev := by
    intro ev hev
    rcases hev1 ev hev with h | ⟨k, sh, d, hk, h⟩
    · exact Or.inr (Or.inr (Or.inl h))
    · refine Or.inr (Or.inr (Or.inr (Or.inl ⟨k, sh, d, ?_, by simpa using h⟩)))
      rw [hsfc]
      exact hk
  have hbase : ∀ ev ∈ [Event.callSelectGroup tg.uuid, Event.callConstructsCurrent,
      Event.callConstructsCurrent], stepEventOk c tg ev := by
    intro ev hev
    fin_cases hev <;> simp [stepEventOk]
  cases res1 with
  | error e3 =>
    refine ⟨Except.error e3, [Event.callSelectGroup tg.uuid,
      Event.callConstructsCurrent, Event.callConstructsCurrent] ++ ex1, ?_, by simp, ?_, ?_⟩
    · simp [stepSelectOn, bind_app, select_group_run, hsel,
        get_current_construct_run, hcc, get_all_shots_run, getAllShotsRes,
        hemp, hrun1, List.append_assoc]
    · exact stepEventOk_append c tg _ _ hbase hmem1
    · intro h
      exact absurd h (by simp)
  | ok thumbs =>
    cases hrq : getRenderQueueRes c with
    | error e4 =>
      refine ⟨Except.error e4, ([Event.callSelectGroup tg.uuid,
        Event.callConstructsCurrent, Event.callConstructsCurrent] ++ ex1) ++
        [Event.callRenderQueue], ?_, by simp, ?_, ?_⟩
      · simp [stepSelectOn, bind_app, select_group_run, hsel,
          get_current_construct_run, hcc, get_all_shots_run, getAllShotsRes,
          hemp, hrun1, get_render_queue_run, hrq, List.append_assoc]
      · refine stepEventOk_append c tg _ _ (stepEventOk_append c tg _ _ hbase hmem1) ?_
        intro ev hev
        fin_cases hev <;> simp [stepEventOk]
      · intro h
        exact absurd h (by simp)
    | ok q2 =>
      rcases hpl : c.playerEnterCurrent with e5 | u5
      · refine ⟨Except.error e5, ([Event.callSelectGroup tg.uuid,
          Event.callConstructsCurrent, Event.callConstructsCurrent] ++ ex1) ++
          [Event.callRenderQueue, Event.callPlayerEnterCurrent], ?_, by simp, ?_, ?_⟩
        · simp [stepSelectOn, bind_app, select_group_run, hsel,
            get_current_construct_run, hcc, get_all_shots_run, getAllShotsRes,
            hemp, hrun1, get_render_queue_run, hrq, enter_player_none_run, hpl,
            List.append_assoc]
        · refine stepEventOk_append c tg _ _ (stepEventOk_append c tg _ _ hbase hmem1) ?_
          intro ev hev
          fin_cases hev <;> simp [stepEventOk]
        · intro h
          exact absurd h (by simp)
      rcases hpm : c.setPlaymode ⟨"PLAY_FRW", "LOOP", "ON", 1, false⟩ with e6 | u6
      · refine ⟨Except.error e6, ([Event.callSelectGroup tg.uuid,
          Event.callConstructsCurrent, Event.callConstructsCurrent] ++ ex1) ++
          [Event.callRenderQueue, Event.callPlayerEnterCurrent,
            Event.callSetPlaymode playFrwLoop], ?_, by simp, ?_, ?_⟩
        · simp [stepSelectOn, bind_app, select_group_run, hsel,
            get_current_construct_run, hcc, get_all_shots_run, getAllShotsRes,
            hemp, hrun1, get_render_queue_run, hrq, enter_player_none_run, hpl,
            set_playback_mode_run, hpm, playFrwLoop, List.append_assoc]
        · refine stepEventOk_append c tg _ _ (stepEventOk_append c tg _ _ hbase hmem1) ?_
          intro ev hev
          fin_cases hev <;> simp [stepEventOk]
        · intro h
          exact absurd h (by simp)
      refine ⟨Except.ok true, ([Event.callSelectGroup tg.uuid,
        Event.callConstructsCurrent, Event.callConstructsCurrent] ++ ex1) ++
        [Event.callRenderQueue, Event.callPlayerEnterCurrent,
          Event.callSetPlaymode playFrwLoop], ?_, by simp, ?_, ?_⟩
      · simp [stepSelectOn, bind_app, select_group_run, hsel,
          get_current_construct_run, hcc, get_all_shots_run, getAllShotsRes,
          hemp, hrun1, get_render_queue_run, hrq, enter_player_none_run, hpl,
          set_playback_mode_run, hpm, playFrwLoop, pure_app, List.append_assoc]
      · refine stepEventOk_append c tg _ _ (stepEventOk_append c tg _ _ hbase hmem1) ?_
        intro ev hev
        fin_cases hev <;> simp [stepEventOk]
      · intro _
        refine ⟨([Event.callSelectGroup tg.uuid, Event.callConstructsCurrent,
          Event.callConstructsCurrent] ++ ex1) ++ [Event.callRenderQueue], ?_⟩
        simp [List.append_assoc]

theorem enter_project_exitOther (c : Client) (pn : String) (m : String)
    (h : c.doProjectExit = Except.error (Exc.other m)) (tr : List Event) :
    enter_project c pn tr = (Except.error (Exc.other m), tr ++ [Event.callProjectExit]) := by
  unfold enter_project catchApi call
  simp [bind_app, h]

/-- The event kinds any run of the pipeline body may append.  The only
file writes are thumbnail writes at the loop paths of the first five
shots. -/
def bodyEventOk (c : Client) (ev : Event) : Prop :=
  ev = Event.callSystemInfo ∨
  ev = Event.callProjectExit ∨
  (∃ n, ev = Event.callProjectEnter n) ∨
  ev = Event.callProjectsCurrent ∨
  (∃ l, ev = Event.callGetGroups l) ∨
  (∃ u, ev = Event.callSelectGroup u) ∨
  ev = Event.callConstructsCurrent ∨
  (∃ s, ev = Event.callRenderSnapshot s) ∨
  (∃ k sh d, ((shotsFromClient c).take 5)[k]? = some sh ∧
    ev = Event.fsWrite (thumbLoopPath k sh.uuid) d) ∨
  ev = Event.callRenderQueue ∨
  ev = Event.callPlayerEnterCurrent ∨
  ev = Event.callSetPlaymode playFrwLoop

theorem stepEventOk_body (c : Client) (tg : Group) (ev : Event)
    (h : stepEventOk c tg ev) : bodyEventOk c ev := by
  unfold stepEventOk at h
  unfold bodyEventOk
  rcases h with h | h | h | h | h | h | h
  · exact Or.inr (Or.inr (Or.inr (Or.inr (Or.inr (Or.inl ⟨tg.uuid, h⟩)))))
  · exact Or.inr (Or.inr (Or.inr (Or.inr (Or.inr (Or.inr (Or.inl h))))))
  · exact Or.inr (Or.inr (Or.inr (Or.inr (Or.inr (Or.inr (Or.inr (Or.inl h)))))))
  · exact Or.inr (Or.inr (Or.inr (Or.inr (Or.inr (Or.inr (Or.inr (Or.inr (Or.inl h))))))))
  · exact Or.inr (Or.inr (Or.inr (Or.inr (Or.inr (Or.inr (Or.inr (Or.inr (Or.inr (Or.inl h)))))))))
  · exact Or.inr (Or.inr (Or.inr (Or.inr (Or.inr (Or.inr (Or.inr (Or.inr (Or.inr (Or.inr (Or.inl h))))))))))
  · exact Or.inr (Or.inr (Or.inr (Or.inr (Or.inr (Or.inr (Or.inr (Or.inr (Or.inr (Or.inr (Or.inr h))))))))))

theorem bodyEventOk_append (c : Client) (l1 l2 : List Event)
    (p1 : ∀ ev ∈ l1, bodyEventOk c ev) (p2 : ∀ ev ∈ l2, bodyEventOk c ev) :
    ∀ ev ∈ l1 ++ l2, bodyEventOk c ev := by
  intro ev hev
  rcases List.mem_append.mp hev with h | h
  exacts [p1 ev h, p2 ev h]

/-- Master decomposition of a pipeline-body run whose best-effort exit is
benign (succeeds or raises an `ApiException`). -/
theorem browse_body_events_benign (c : Client) (pn : String) (tgn : Option String)
    (tr : List Event) (si : SystemInfo)
    (h1 : c.getSystemProperties = Except.ok si)
    (hx : c.doProjectExit = Except.ok Unit.unit ∨
      ∃ e2, c.doProjectExit = Except.error (Exc.api e2)) :
    ∃ res ex, browse_project_body c pn tgn tr = (res, tr ++ ex) ∧
      (∀ ev ∈ ex, bodyEventOk c ev) ∧
      (res = Except.ok true →
        ∃ pre, ex = pre ++ [Event.callPlayerEnterCurrent,
          Event.callSetPlaymode playFrwLoop]) := by
  rcases h3 : c.doProjectEnter pn with e | u3
  · refine ⟨Except.error e, [Event.callSystemInfo, Event.callProjectExit,
      Event.callProjectEnter pn], ?_, ?_, ?_⟩
    · simp [browse_project_body, bind_app, get_system_info_run, h1,
        enter_project_run c pn hx, enterProjectRes, enterProjectTrace, h3,
        List.append_assoc]
    · intro ev hev
      fin_cases hev <;> simp [bodyEventOk]
    · intro h
      exact absurd h (by simp)
  rcases h4 : c.getProjectsCurrent with e | pr
  · refine ⟨Except.error e, [Event.callSystemInfo, Event.callProjectExit,
      Event.callProjectEnter pn, Event.callProjectsCurrent], ?_, ?_, ?_⟩
    · simp [browse_project_body, bind_app, get_system_info_run, h1,
        enter_project_run c pn hx, enterProjectRes, enterProjectTrace, h3, h4,
        List.append_assoc]
    · intro ev hev
      fin_cases hev <;> simp [bodyEventOk]
    · intro h
      exact absurd h (by simp)
  rcases h5 : c.getGroups "ALL" with e | groups
  · cases e with
    | api e2 =>
      rcases hb : e2.body with _ | b
      · refine ⟨Except.error (Exc.other attrErrMsg), [Event.callSystemInfo,
          Event.callProjectExit, Event.callProjectEnter pn,
          Event.callProjectsCurrent, Event.callGetGroups "ALL"], ?_, ?_, ?_⟩
        · simp [browse_project_body, stepGroupsOn, bind_app, get_system_info_run,
            h1, enter_project_run c pn hx, enterProjectRes, enterProjectTrace,
            h3, h4, get_groups_run, getGroupsRes, h5, hb, List.append_assoc]
        · intro ev hev
          fin_cases hev <;> simp [bodyEventOk]
        · intro h
          exact absurd h (by simp)
      · refine ⟨Except.ok false, [Event.callSystemInfo, Event.callProjectExit,
          Event.callProjectEnter pn, Event.callProjectsCurrent,
          Event.callGetGroups "ALL"], ?_, ?_, ?_⟩
        · simp [browse_project_body, stepGroupsOn, bind_app, get_system_info_run,
            h1, enter_project_run c pn hx, enterProjectRes, enterProjectTrace,
            h3, h4, get_groups_run, getGroupsRes, h5, hb, pure_app,
            List.append_assoc]
        · intro ev hev
          fin_cases hev <;> simp [bodyEventOk]
        · intro h
          exact absurd h (by simp)
    | other m =>
      refine ⟨Except.error (Exc.other m), [Event.callSystemInfo,
        Event.callProjectExit, Event.callProjectEnter pn,
        Event.callProjectsCurrent, Event.callGetGroups "ALL"], ?_, ?_, ?_⟩
      · simp [browse_project_body, stepGroupsOn, bind_app, get_system_info_run,
          h1, enter_project_run c pn hx, enterProjectRes, enterProjectTrace,
          h3, h4, get_groups_run, getGroupsRes, h5, List.append_assoc]
      · intro ev hev
        fin_cases hev <;> simp [bodyEventOk]
      · intro h
        exact absurd h (by simp)
  by_cases h6 : groups.isEmpty = true
  · have hgnil : groups = [] := by
      cases groups
      · rfl
      · simp at h6
    refine ⟨Except.ok false, [Event.callSystemInfo, Event.callProjectExit,
      Event.callProjectEnter pn, Event.callProjectsCurrent,
      Event.callGetGroups "ALL"], ?_, ?_, ?_⟩
    · simp [browse_project_body, stepGroupsOn, bind_app, get_system_info_run,
        h1, enter_project_run c pn hx, enterProjectRes, enterProjectTrace,
        h3, h4, get_groups_run, getGroupsRes, h5, h6, hgnil, pure_app,
        List.append_assoc]
    · intro ev hev
      fin_cases hev <;> simp [bodyEventOk]
    · intro h
      exact absurd h (by simp)
  have h6f : groups.isEmpty = false := by
    cases hg : groups.isEmpty
    · rfl
    · exact absurd hg h6
  rcases h7 : targetOf groups tgn with _ | tg
  · refine ⟨Except.ok false, [Event.callSystemInfo, Event.callProjectExit,
      Event.callProjectEnter pn, Event.callProjectsCurrent,
      Event.callGetGroups "ALL"], ?_, ?_, ?_⟩
    · have h6' : ¬ groups = [] := by
        intro hg
        subst hg
        simp at h6f
      simp [browse_project_body, stepGroupsOn, bind_app, get_system_info_run,
        h1, enter_project_run c pn hx, enterProjectRes, enterProjectTrace,
        h3, h4, get_groups_run, getGroupsRes, h5, h6f, h6', h7, pure_app,
        List.append_assoc]
    · intro ev hev
      fin_cases hev <;> simp [bodyEventOk]
    · intro h
      exact absurd h (by simp)
  obtain ⟨res, ex, hrun, hselmem, hok, hend⟩ := stepSelectOn_events c tg
    (tr ++ [Event.callSystemInfo, Event.callProjectExit,
      Event.callProjectEnter pn, Event.callProjectsCurrent,
      Event.callGetGroups "ALL"])
  refine ⟨res, [Event.callSystemInfo, Event.callProjectExit,
    Event.callProjectEnter pn, Event.callProjectsCurrent,
    Event.callGetGroups "ALL"] ++ ex, ?_, ?_, ?_⟩
  · rw [browse_to_selection c pn tgn si pr groups tg h1 hx h3 h4 h5 h6f h7, hrun]
    simp [List.append_assoc]
  · refine bodyEventOk_append c _ _ ?_
      (fun ev hev => stepEventOk_body c tg ev (hok ev hev))
    intro ev hev
    fin_cases hev <;> simp [bodyEventOk]
  · intro hres
    obtain ⟨pre, hpre⟩ := hend hres
    refine ⟨[Event.callSystemInfo, Event.callProjectExit,
      Event.callProjectEnter pn, Event.callProjectsCurrent,
      Event.callGetGroups "ALL"] ++ pre, ?_⟩
    rw [hpre]
    simp [List.append_assoc]

/-- Master decomposition of a whole pipeline-body run, for an arbitrary
oracle: only allowed event kinds are appended, and success with `True`
forces the run to end with the player call and the playmode push. -/
theorem browse_body_events (c : Client) (pn : String) (tgn : Option String)
    (tr : List Event) :
    ∃ res ex, browse_project_body c pn tgn tr = (res, tr ++ ex) ∧
      (∀ ev ∈ ex, bodyEventOk c ev) ∧
      (res = Except.ok true →
        ∃ pre, ex = pre ++ [Event.callPlayerEnterCurrent,
          Event.callSetPlaymode playFrwLoop]) := by
  rcases h1 : c.getSystemProperties with e | si
  · refine ⟨Except.error e, [Event.callSystemInfo], ?_, ?_, ?_⟩
    · simp [browse_project_body, bind_app, get_system_info_run, h1]
    · intro ev hev
      fin_cases hev <;> simp [bodyEventOk]
    · intro h
      exact absurd h (by simp)
  rcases hx0 : c.doProjectExit with ex0 | ux0
  case error =>
    cases ex0 with
    | other m =>
      refine ⟨Except.error (Exc.other m),
        [Event.callSystemInfo, Event.callProjectExit], ?_, ?_, ?_⟩
      · simp [browse_project_body, bind_app, get_system_info_run, h1,
          enter_project_exitOther c pn m hx0, List.append_assoc]
      · intro ev hev
        fin_cases hev <;> simp [bodyEventOk]
      · intro h
        exact absurd h (by simp)
    | api e0 =>
      exact browse_body_events_benign c pn tgn tr si h1 (Or.inr ⟨e0, hx0⟩)
  case ok =>
    exact browse_body_events_benign c pn tgn tr si h1 (Or.inl (by rw [hx0]))

/-! ### Claims C10, C8, C9 -/

/-- C10: for every behaviour of the remote client — any `RemoteError` or
any other exception at any step — `browse_project` never propagates an
exception: it returns a boolean, `true` exactly when the unprotected body
completes with `true`, and `false` on every failure path. -/
theorem C10_browse_total (c : Client) (pn : String) (tgn : Option String)
    (tr : List Event) :
    ∃ b : Bool, (browse_project c pn tgn tr).1 = Except.ok b ∧
      (b = true ↔ (browse_project_body c pn tgn tr).1 = Except.ok true) := by
  rcases h : browse_project_body c pn tgn tr with ⟨r, tr2⟩
  cases r with
  | error e =>
    refine ⟨false, ?_, ?_⟩
    · unfold browse_project catchAll
      rw [h]
      cases e <;> rfl
    · simp [h]
  | ok b =>
    refine ⟨b, ?_, ?_⟩
    · unfold browse_project catchAll
      rw [h]
    · simp [h]

/-- C8: on every successful run, the pipeline enters player mode for the
current construct and then — as its final action — pushes the playback
configuration `playFrwLoop`: mode `"PLAY_FRW"` (reverse-frame playback
per the specification's reading of the client's playmode enum), looping,
with the fixed fields audio on, speed 1 and no range restriction. -/
theorem C8_player_playmode (c : Client) (pn : String) (tgn : Option String)
    (h : (browse_project c pn tgn []).1 = Except.ok true) :
    (∃ pre, (browse_project c pn tgn []).2 =
      pre ++ [Event.callPlayerEnterCurrent, Event.callSetPlaymode playFrwLoop]) ∧
    playFrwLoop = ⟨reverseFramePlaybackMode, "LOOP", "ON", 1, false⟩ := by
  refine ⟨?_, rfl⟩
  have hb := (browse_ok_true c pn tgn []).mp h
  obtain ⟨res, ex, hrun, _, hend⟩ := browse_body_events c pn tgn []
  have hres : res = Except.ok true := by
    rw [hrun] at hb
    exact hb
  obtain ⟨pre, hpre⟩ := hend hres
  have ht := browse_trace_eq c pn tgn []
  rw [hrun] at ht
  simp only [List.nil_append] at ht
  rw [hpre] at ht
  exact ⟨pre, ht⟩

theorem generate_thumbnail_trace (c : Client) (u : String) (frame : Nat)
    (po : Option String) (tr : List Event) :
    (generate_thumbnail c u frame po tr).2 = tr ++ genThumbTrace c u frame po := by
  rw [generate_thumbnail_run]

theorem thumbLoopPath_tmp (k : Nat) (u : String) :
    ∃ rest, thumbLoopPath k u = "/tmp/" ++ rest := by
  refine ⟨"project_thumb_" ++ toString k ++ "_" ++ u.take 8 ++ ".jpg", ?_⟩
  unfold thumbLoopPath
  rw [show ("/tmp/project_thumb_" : String) = "/tmp/" ++ "project_thumb_" from rfl]
  simp only [String.append_assoc]

theorem thumbDefaultPath_tmp (u now : String) :
    ∃ rest, thumbDefaultPath u now = "/tmp/" ++ rest := by
  refine ⟨"thumbnail_" ++ u.take 8 ++ "_" ++ now ++ ".jpg", ?_⟩
  unfold thumbDefaultPath
  rw [show ("/tmp/thumbnail_" : String) = "/tmp/" ++ "thumbnail_" from rfl]
  simp only [String.append_assoc]

/-- C9 (amended): every thumbnail file the pipeline writes lands under
`/tmp` and is named from the loop index and the shot-identifier prefix —
not from a timestamp; the timestamped name `thumbDefaultPath` is used by
`generate_thumbnail` only when no output path is supplied, which the
pipeline never does. -/
theorem C9_thumbnail_paths (c : Client) (pn : String) (tgn : Option String) :
    (∀ p d, Event.fsWrite p d ∈ (browse_project c pn tgn []).2 →
      (∃ k sh, ((shotsFromClient c).take 5)[k]? = some sh ∧
        p = thumbLoopPath k sh.uuid) ∧ ∃ rest, p = "/tmp/" ++ rest) ∧
    (∀ u frame tr p d,
      Event.fsWrite p d ∈ (generate_thumbnail c u frame none tr).2 →
      Event.fsWrite p d ∈ tr ∨
        (p = thumbDefaultPath u c.now ∧ ∃ rest, p = "/tmp/" ++ rest)) := by
  constructor
  · intro p d hpd
    rw [browse_trace_eq] at hpd
    obtain ⟨res, ex, hrun, hok, _⟩ := browse_body_events c pn tgn []
    rw [hrun] at hpd
    simp only [List.nil_append] at hpd
    rcases hok _ hpd with h | h | ⟨n, h⟩ | h | ⟨l, h⟩ | ⟨u2, h⟩ | h | ⟨s, h⟩ |
      ⟨k, sh, d2, hk, h⟩ | h | h | h
    all_goals try simp at h
    obtain ⟨hp, hd⟩ := h
    refine ⟨⟨k, sh, hk, hp⟩, ?_⟩
    rw [hp]
    exact thumbLoopPath_tmp k sh.uuid
  · intro u frame tr p d hpd
    rw [generate_thumbnail_trace] at hpd
    rcases List.mem_append.mp hpd with hin | hin
    · exact Or.inl hin
    · rcases genThumbTrace_mem c u frame none _ hin with ⟨s, h⟩ | ⟨d2, h⟩
      · simp at h
      · injection h with hp hd
        refine Or.inr ⟨by rw [hp]; rfl, ?_⟩
        rw [hp]
        exact thumbDefaultPath_tmp u c.now

/-! ### Claims C4, C3, C5 -/

/-- Recognizer for the calls of the pipeline steps that follow group
selection (construct fetch, shot collection, thumbnails, render queue,
player, playback mode). -/
def isLaterStep : Event → Bool
  | Event.callConstructsCurrent => true
  | Event.callRenderSnapshot _ => true
  | Event.callRenderQueue => true
  | Event.callPlayerEnterTimeline _ => true
  | Event.callPlayerEnterCurrent => true
  | Event.callSetPlaymode _ => true
  | Event.fsWrite _ _ => true
  | _ => false

/-- C4: when `selectGroup` fails with a `RemoteError`, the pipeline
returns an overall failure result and invokes none of the subsequent
steps: the whole trace consists of the calls up to and including the
failed selection, with no construct fetch, snapshot, render-queue,
player or playmode call. -/
theorem C4_selectGroup_failure (c : Client) (pn : String) (tgn : Option String)
    (si : SystemInfo) (pr : Project) (groups : List Group) (tg : Group)
    (err : RemoteError)
    (h1 : c.getSystemProperties = Except.ok si)
    (h2 : c.doProjectExit = Except.ok Unit.unit)
    (h3 : c.doProjectEnter pn = Except.ok Unit.unit)
    (h4 : c.getProjectsCurrent = Except.ok pr)
    (h5 : c.getGroups "ALL" = Except.ok groups)
    (h6 : groups.isEmpty = false)
    (h7 : targetOf groups tgn = some tg)
    (h8 : c.selectGroup tg.uuid = Except.error (Exc.api err)) :
    browse_project c pn tgn [] =
      (Except.ok false, [Event.callSystemInfo, Event.callProjectExit,
        Event.callProjectEnter pn, Event.callProjectsCurrent,
        Event.callGetGroups "ALL", Event.callSelectGroup tg.uuid]) ∧
    ∀ ev ∈ (browse_project c pn tgn []).2, isLaterStep ev = false := by
  have hbody : browse_project_body c pn tgn [] =
      (Except.error (Exc.api err), [Event.callSystemInfo, Event.callProjectExit,
        Event.callProjectEnter pn, Event.callProjectsCurrent,
        Event.callGetGroups "ALL", Event.callSelectGroup tg.uuid]) := by
    rw [browse_to_selection c pn tgn si pr groups tg h1 (Or.inl h2) h3 h4 h5 h6 h7]
    simp [stepSelectOn, bind_app, select_group_run, h8, List.append_assoc]
  have hfull : browse_project c pn tgn [] =
      (Except.ok false, [Event.callSystemInfo, Event.callProjectExit,
        Event.callProjectEnter pn, Event.callProjectsCurrent,
        Event.callGetGroups "ALL", Event.callSelectGroup tg.uuid]) := by
    unfold browse_project catchAll
    rw [hbody]
    exact rfl
  refine ⟨hfull, ?_⟩
  intro ev hev
  rw [hfull] at hev
  fin_cases hev <;> rfl

/-- C3 (amended): once the pipeline reaches the selection step, a given
non-empty target name selects the first exact name match, an absent or
empty one the last group of the returned ordering, and no other group
identifier is ever passed to the selection call; when the determined
target is missing the pipeline fails before any selection call. -/
theorem C3_group_selection (c : Client) (pn : String) (tgn : Option String)
    (si : SystemInfo) (pr : Project) (groups : List Group) (tg : Group)
    (h1 : c.getSystemProperties = Except.ok si)
    (h2 : c.doProjectExit = Except.ok Unit.unit)
    (h3 : c.doProjectEnter pn = Except.ok Unit.unit)
    (h4 : c.getProjectsCurrent = Except.ok pr)
    (h5 : c.getGroups "ALL" = Except.ok groups)
    (h6 : groups.isEmpty = false) :
    (targetOf groups tgn = some tg →
      Event.callSelectGroup tg.uuid ∈ (browse_project c pn tgn []).2 ∧
      ∀ u, Event.callSelectGroup u ∈ (browse_project c pn tgn []).2 →
        u = tg.uuid) ∧
    (targetOf groups tgn = none →
      (browse_project c pn tgn []).1 = Except.ok false ∧
      ∀ u, Event.callSelectGroup u ∉ (browse_project c pn tgn []).2) ∧
    (pyTruthyStr tgn = true →
      targetOf groups tgn = groups.find? (fun g => g.name == tgn.getD "")) ∧
    (pyTruthyStr tgn = false → targetOf groups tgn = groups.getLast?) := by
  refine ⟨?_, ?_, ?_, ?_⟩
  · intro h7
    obtain ⟨res, ex, hrun, hsel, hok, _⟩ := stepSelectOn_events c tg
      [Event.callSystemInfo, Event.callProjectExit, Event.callProjectEnter pn,
        Event.callProjectsCurrent, Event.callGetGroups "ALL"]
    have ht : (browse_project c pn tgn []).2 =
        [Event.callSystemInfo, Event.callProjectExit, Event.callProjectEnter pn,
          Event.callProjectsCurrent, Event.callGetGroups "ALL"] ++ ex := by
      rw [browse_trace_eq,
        browse_to_selection c pn tgn si pr groups tg h1 (Or.inl h2) h3 h4 h5 h6 h7]
      simp only [List.nil_append]
      rw [hrun]
    constructor
    · rw [ht]
      exact List.mem_append.mpr (Or.inr hsel)
    · intro u hu
      rw [ht] at hu
      rcases List.mem_append.mp hu with hu | hu
      · simp at hu
      · rcases hok _ hu with h | h | ⟨s, h⟩ | ⟨k, sh, d, hk, h⟩ | h | h | h
        · exact Event.callSelectGroup.inj h
        · simp at h
        · simp at h
        · simp at h
        · simp at h
        · simp at h
        · simp at h
  · intro h7
    have h6' : ¬ groups = [] := by
      intro hg
      subst hg
      simp at h6
    have hbody : browse_project_body c pn tgn [] =
        (Except.ok false, [Event.callSystemInfo, Event.callProjectExit,
          Event.callProjectEnter pn, Event.callProjectsCurrent,
          Event.callGetGroups "ALL"]) := by
      unfold browse_project_body stepGroupsOn
      simp [bind_app, get_system_info_run, h1, enter_project_run c pn (Or.inl h2),
        enterProjectRes, enterProjectTrace, h3, h4, get_groups_run, getGroupsRes,
        h5, h6, h6', h7, pure_app, List.append_assoc]
    constructor
    · unfold browse_project catchAll
      rw [hbody]
    · intro u hu
      have ht := browse_trace_eq c pn tgn []
      rw [hbody] at ht
      rw [ht] at hu
      simp at hu
  · intro htr
    simp [targetOf, htr]
  · intro htr
    simp [targetOf, htr]

/-- C5: with the pipeline reaching the thumbnail step and the snapshot
transport raising at most `RemoteError`s, the run issues exactly one
snapshot request per shot among the first five collected shots, in
order — `min n 5` requests for `n` shots — and no snapshot request
anywhere else. -/
theorem C5_thumbnail_bound (c : Client) (pn : String) (tgn : Option String)
    (si : SystemInfo) (pr : Project) (groups : List Group) (tg : Group)
    (g : Group) (con : Construct)
    (h1 : c.getSystemProperties = Except.ok si)
    (h2 : c.doProjectExit = Except.ok Unit.unit)
    (h3 : c.doProjectEnter pn = Except.ok Unit.unit)
    (h4 : c.getProjectsCurrent = Except.ok pr)
    (h5 : c.getGroups "ALL" = Except.ok groups)
    (h6 : groups.isEmpty = false)
    (h7 : targetOf groups tgn = some tg)
    (h8 : c.selectGroup tg.uuid = Except.ok g)
    (hc : c.getConstructsCurrent = Except.ok con)
    (hs : ∀ s m, c.renderSnapshot s ≠ Except.error (Exc.other m)) :
    (browse_project c pn tgn []).2.filter isSnapshotCall =
      ((flattenShots con.slots).take 5).map
        (fun sh => Event.callRenderSnapshot ⟨sh.uuid, 0, true⟩) ∧
    ((browse_project c pn tgn []).2.filter isSnapshotCall).length =
      min (flattenShots con.slots).length 5 := by
  have hmain : (browse_project c pn tgn []).2.filter isSnapshotCall =
      ((flattenShots con.slots).take 5).map
        (fun sh => Event.callRenderSnapshot ⟨sh.uuid, 0, true⟩) := by
    rw [browse_trace_eq,
      browse_to_selection c pn tgn si pr groups tg h1 (Or.inl h2) h3 h4 h5 h6 h7]
    simp only [List.nil_append]
    by_cases hemp : flattenShots con.slots = []
    · have hstep : (stepSelectOn c tg [Event.callSystemInfo,
          Event.callProjectExit, Event.callProjectEnter pn,
          Event.callProjectsCurrent, Event.callGetGroups "ALL"]).2 =
          [Event.callSystemInfo, Event.callProjectExit, Event.callProjectEnter pn,
            Event.callProjectsCurrent, Event.callGetGroups "ALL",
            Event.callSelectGroup tg.uuid, Event.callConstructsCurrent,
            Event.callConstructsCurrent] := by
        simp [stepSelectOn, bind_app, select_group_run, h8,
          get_current_construct_run, hc, get_all_shots_run, getAllShotsRes,
          hemp, pure_app, List.append_assoc]
      rw [hstep, hemp]
      simp [isSnapshotCall]
    · obtain ⟨out1, ex1, hrun1, hfil1⟩ := thumb_loop_snapshots c hs
        ((flattenShots con.slots).take 5) 0
        [Event.callSystemInfo, Event.callProjectExit, Event.callProjectEnter pn,
          Event.callProjectsCurrent, Event.callGetGroups "ALL",
          Event.callSelectGroup tg.uuid, Event.callConstructsCurrent,
          Event.callConstructsCurrent]
      cases hrq : getRenderQueueRes c with
      | error e4 =>
        have hstep : (stepSelectOn c tg [Event.callSystemInfo,
            Event.callProjectExit, Event.callProjectEnter pn,
            Event.callProjectsCurrent, Event.callGetGroups "ALL"]).2 =
            ([Event.callSystemInfo, Event.callProjectExit,
              Event.callProjectEnter pn, Event.callProjectsCurrent,
              Event.callGetGroups "ALL", Event.callSelectGroup tg.uuid,
              Event.callConstructsCurrent, Event.callConstructsCurrent] ++ ex1) ++
            [Event.callRenderQueue] := by
          simp [stepSelectOn, bind_app, select_group_run, h8,
            get_current_construct_run, hc, get_all_shots_run, getAllShotsRes,
            hemp, hrun1, get_render_queue_run, hrq, List.append_assoc]
        rw [hstep]
        simp [List.filter_append, hfil1, isSnapshotCall]
      | ok q2 =>
        rcases hpl : c.playerEnterCurrent with e5 | u5
        · have hstep : (stepSelectOn c tg [Event.callSystemInfo,
              Event.callProjectExit, Event.callProjectEnter pn,
              Event.callProjectsCurrent, Event.callGetGroups "ALL"]).2 =
              ([Event.callSystemInfo, Event.callProjectExit,
                Event.callProjectEnter pn, Event.callProjectsCurrent,
                Event.callGetGroups "ALL", Event.callSelectGroup tg.uuid,
                Event.callConstructsCurrent, Event.callConstructsCurrent] ++ ex1) ++
              [Event.callRenderQueue, Event.callPlayerEnterCurrent] := by
            simp [stepSelectOn, bind_app, select_group_run, h8,
              get_current_construct_run, hc, get_all_shots_run, getAllShotsRes,
              hemp, hrun1, get_render_queue_run, hrq, enter_player_none_run, hpl,
              List.append_assoc]
          rw [hstep]
          simp [List.filter_append, hfil1, isSnapshotCall]
        · rcases hpm : c.setPlaymode ⟨"PLAY_FRW", "LOOP", "ON", 1, false⟩ with e6 | u6
          · have hstep : (stepSelectOn c tg [Event.callSystemInfo,
                Event.callProjectExit, Event.callProjectEnter pn,
                Event.callProjectsCurrent, Event.callGetGroups "ALL"]).2 =
                ([Event.callSystemInfo, Event.callProjectExit,
                  Event.callProjectEnter pn, Event.callProjectsCurrent,
                  Event.callGetGroups "ALL", Event.callSelectGroup tg.uuid,
                  Event.callConstructsCurrent, Event.callConstructsCurrent] ++ ex1) ++
                [Event.callRenderQueue, Event.callPlayerEnterCurrent,
                  Event.callSetPlaymode ⟨"PLAY_FRW", "LOOP", "ON", 1, false⟩] := by
              simp [stepSelectOn, bind_app, select_group_run, h8,
                get_current_construct_run, hc, get_all_shots_run, getAllShotsRes,
                hemp, hrun1, get_render_queue_run, hrq, enter_player_none_run,
                hpl, set_playback_mode_run, hpm, List.append_assoc]
            rw [hstep]
            simp [List.filter_append, hfil1, isSnapshotCall]
          · have hstep : (stepSelectOn c tg [Event.callSystemInfo,
                Event.callProjectExit, Event.callProjectEnter pn,
                Event.callProjectsCurrent, Event.callGetGroups "ALL"]).2 =
                ([Event.callSystemInfo, Event.callProjectExit,
                  Event.callProjectEnter pn, Event.callProjectsCurrent,
                  Event.callGetGroups "ALL", Event.callSelectGroup tg.uuid,
                  Event.callConstructsCurrent, Event.callConstructsCurrent] ++ ex1) ++
                [Event.callRenderQueue, Event.callPlayerEnterCurrent,
                  Event.callSetPlaymode ⟨"PLAY_FRW", "LOOP", "ON", 1, false⟩] := by
              simp [stepSelectOn, bind_app, select_group_run, h8,
                get_current_construct_run, hc, get_all_shots_run, getAllShotsRes,
                hemp, hrun1, get_render_queue_run, hrq, enter_player_none_run,
                hpl, set_playback_mode_run, hpm, pure_app, List.append_assoc]
            rw [hstep]
            simp [List.filter_append, hfil1, isSnapshotCall]
  refine ⟨hmain, ?_⟩
  rw [hmain, List.length_map, List.length_take, Nat.min_comm]

/-! ### Claims C2, C6, C7 -/

/-- C2 (amended): `generate_thumbnail` writes a file only when the
response declares `image/jpeg` content (and carries data); on a
successful response with any other content type it writes nothing but
still returns the output path; the failure marker is returned exactly on
`RemoteError`, and then nothing is written either. -/
theorem C2_generateThumbnail (c : Client) (u : String) (frame : Nat)
    (po : Option String) (tr : List Event) :
    (∀ r, c.renderSnapshot ⟨u, frame, true⟩ = Except.ok r →
      r.contentType ≠ some "image/jpeg" →
      generate_thumbnail c u frame po tr =
        (Except.ok (some (resolvedThumbPath c u po)),
          tr ++ [Event.callRenderSnapshot ⟨u, frame, true⟩])) ∧
    (∀ r, c.renderSnapshot ⟨u, frame, true⟩ = Except.ok r →
      r.contentType = some "image/jpeg" → r.hasData = true →
      generate_thumbnail c u frame po tr =
        (Except.ok (some (resolvedThumbPath c u po)),
          tr ++ [Event.callRenderSnapshot ⟨u, frame, true⟩,
            Event.fsWrite (resolvedThumbPath c u po) r.data])) ∧
    (∀ e, c.renderSnapshot ⟨u, frame, true⟩ = Except.error (Exc.api e) →
      generate_thumbnail c u frame po tr =
        (Except.ok none, tr ++ [Event.callRenderSnapshot ⟨u, frame, true⟩])) ∧
    (∀ p d, Event.fsWrite p d ∈ (generate_thumbnail c u frame po tr).2 →
      Event.fsWrite p d ∈ tr ∨
        ∃ r, c.renderSnapshot ⟨u, frame, true⟩ = Except.ok r ∧
          r.contentType = some "image/jpeg" ∧ r.hasData = true ∧
          p = resolvedThumbPath c u po ∧ d = r.data) := by
  refine ⟨?_, ?_, ?_, ?_⟩
  · intro r hr hct
    simp [generate_thumbnail_run, genThumbRes, genThumbTrace, hr, hct]
  · intro r hr hct hhd
    simp [generate_thumbnail_run, genThumbRes, genThumbTrace, hr, hct, hhd]
  · intro e he
    simp [generate_thumbnail_run, genThumbRes, genThumbTrace, he]
  · intro p d hpd
    rw [generate_thumbnail_trace] at hpd
    rcases List.mem_append.mp hpd with hin | hin
    · exact Or.inl hin
    · unfold genThumbTrace at hin
      rcases hr : c.renderSnapshot ⟨u, frame, true⟩ with e | r <;> rw [hr] at hin
      · simp at hin
      · by_cases hct : r.contentType = some "image/jpeg"
        · cases hhd : r.hasData
          · simp [hct, hhd] at hin
          · simp [hct, hhd] at hin
            exact Or.inr ⟨r, rfl, hct, hhd, hin.1, hin.2⟩
        · simp [hct] at hin

/-- C6 (amended): when the group-listing call raises a `RemoteError`
carrying a structured body, `get_groups` fails open and returns the
empty sequence; when the error carries no body, the error handler itself
raises an `AttributeError` (`e.body.decode` on `None`), which propagates
out of `get_groups`. -/
theorem C6_getGroups_failOpen (c : Client) (detailed : Bool) (e : RemoteError)
    (h : c.getGroups (if detailed then "ALL" else "") = Except.error (Exc.api e))
    (tr : List Event) :
    (∀ b, e.body = some b →
      get_groups c detailed tr = (Except.ok [],
        tr ++ [Event.callGetGroups (if detailed then "ALL" else "")])) ∧
    (e.body = none →
      get_groups c detailed tr = (Except.error (Exc.other attrErrMsg),
        tr ++ [Event.callGetGroups (if detailed then "ALL" else "")])) := by
  constructor
  · intro b hb
    simp [get_groups_run, getGroupsRes, h, hb]
  · intro hb
    simp [get_groups_run, getGroupsRes, h, hb]

/-- C7 (amended): `enter_project` first performs a best-effort exit whose
`RemoteError` is ignored, then enters the named project and fetches the
now-current project; it fails with a `RemoteError` exactly when entry or
that subsequent fetch fails, and on success returns the fetched current
project. -/
theorem C7_enterProject (c : Client) (pn : String)
    (hx : c.doProjectExit = Except.ok Unit.unit ∨
      ∃ e2, c.doProjectExit = Except.error (Exc.api e2)) (tr : List Event) :
    (∀ e, c.doProjectEnter pn = Except.error (Exc.api e) →
      enter_project c pn tr = (Except.error (Exc.api e),
        tr ++ [Event.callProjectExit, Event.callProjectEnter pn])) ∧
    (∀ e, c.doProjectEnter pn = Except.ok Unit.unit →
      c.getProjectsCurrent = Except.error (Exc.api e) →
      enter_project c pn tr = (Except.error (Exc.api e),
        tr ++ [Event.callProjectExit, Event.callProjectEnter pn,
          Event.callProjectsCurrent])) ∧
    (∀ p, c.doProjectEnter pn = Except.ok Unit.unit →
      c.getProjectsCurrent = Except.ok p →
      enter_project c pn tr = (Except.ok p,
        tr ++ [Event.callProjectExit, Event.callProjectEnter pn,
          Event.callProjectsCurrent])) := by
  refine ⟨?_, ?_, ?_⟩
  · intro e he
    simp [enter_project_run c pn hx, enterProjectRes, enterProjectTrace, he,
      List.append_assoc]
  · intro e he hcur
    simp [enter_project_run c pn hx, enterProjectRes, enterProjectTrace, he,
      hcur, List.append_assoc]
  · intro p he hcur
    simp [enter_project_run c pn hx, enterProjectRes, enterProjectTrace, he,
      hcur, List.append_assoc]

/-! ### Concrete oracles for witnesses and counterexamples -/

/-- A group used by the concrete oracles. -/
def grpA : Group := ⟨"gidA", "A", true, []⟩

/-- A construct with a single slot holding a single shot. -/
def baseCon : Construct :=
  ⟨"t", none, 24, [⟨[⟨"shotuuid1", "s1", none, none, none⟩]⟩]⟩

/-- A fully successful remote client. -/
def baseClient : Client :=
  ⟨Except.ok ⟨"S", "1", "2"⟩, Except.ok [], Except.ok Unit.unit,
    fun _ => Except.ok Unit.unit, Except.ok ⟨"P", "m"⟩,
    fun _ => Except.ok [grpA], fun _ => Except.ok grpA, Except.ok baseCon,
    fun _ => Except.ok ⟨some "image/jpeg", true, [7]⟩, Except.ok [],
    fun _ => Except.ok Unit.unit, Except.ok Unit.unit,
    fun _ => Except.ok Unit.unit, "20250101_000000"⟩

def cC2 : Client :=
  { baseClient with renderSnapshot := fun _ => Except.ok ⟨some "text/html", true, [9]⟩ }

def cC2api : Client :=
  { baseClient with renderSnapshot := fun _ => Except.error (Exc.api ⟨404, "nf", none⟩) }

def cC3 : Client :=
  { baseClient with getGroups :=
      fun _ => Except.ok [⟨"u1", "A", true, []⟩, ⟨"u2", "B", false, []⟩] }

def cC3x : Client :=
  { baseClient with getGroups :=
      fun _ => Except.ok [⟨"g1", "", true, []⟩, ⟨"g2", "B", false, []⟩] }

def cC4 : Client :=
  { baseClient with selectGroup :=
      fun _ => Except.error (Exc.api ⟨500, "fail", none⟩) }

def cC5 : Client := baseClient

def cC6 : Client :=
  { baseClient with getGroups :=
      fun _ => Except.error (Exc.api ⟨500, "fail", none⟩) }

def cC6b : Client :=
  { baseClient with getGroups :=
      fun _ => Except.error (Exc.api ⟨500, "fail", some "detail"⟩) }

def cC7 : Client :=
  { baseClient with getProjectsCurrent := Except.error (Exc.api ⟨500, "fail", none⟩) }

def cC7e : Client :=
  { baseClient with doProjectEnter := fun _ => Except.error (Exc.api ⟨500, "fail", none⟩) }

def cC8 : Client := baseClient

def cC9 : Client := baseClient

/-- Elementwise prefix check on character lists. -/
def leadsWith : List Char → List Char → Bool
  | [], _ => true
  | _ :: _, [] => false
  | a :: as, b :: bs => a == b && leadsWith as bs

/-- Contiguous-subsequence check on character lists, used to express
"the file name contains the timestamp". -/
def hasSeq : List Char → List Char → Bool
  | pat, [] => pat.isEmpty
  | pat, c0 :: rest => leadsWith pat (c0 :: rest) || hasSeq pat rest

/-! ### Witnesses and counterexamples -/

theorem C2_witness :
    generate_thumbnail cC2 "shotuuid1" 0 (some "/tmp/x.jpg") [] =
      (Except.ok (some "/tmp/x.jpg"),
        [Event.callRenderSnapshot ⟨"shotuuid1", 0, true⟩]) ∧
    generate_thumbnail baseClient "shotuuid1" 0 (some "/tmp/x.jpg") [] =
      (Except.ok (some "/tmp/x.jpg"),
        [Event.callRenderSnapshot ⟨"shotuuid1", 0, true⟩,
          Event.fsWrite "/tmp/x.jpg" [7]]) ∧
    generate_thumbnail cC2api "shotuuid1" 0 (some "/tmp/x.jpg") [] =
      (Except.ok none, [Event.callRenderSnapshot ⟨"shotuuid1", 0, true⟩]) := by
  refine ⟨?_, ?_, ?_⟩
  · exact (C2_generateThumbnail cC2 "shotuuid1" 0 (some "/tmp/x.jpg") []).1
      ⟨some "text/html", true, [9]⟩ rfl (by decide)
  · exact (C2_generateThumbnail baseClient "shotuuid1" 0 (some "/tmp/x.jpg") []).2.1
      ⟨some "image/jpeg", true, [7]⟩ rfl rfl rfl
  · exact (C2_generateThumbnail cC2api "shotuuid1" 0 (some "/tmp/x.jpg") []).2.2.1
      ⟨404, "nf", none⟩ rfl

theorem C2_counterexample :
    (generate_thumbnail cC2 "shotuuid1" 0 (some "/tmp/x.jpg") []).1 ≠
      Except.ok none ∧
    (generate_thumbnail cC2 "shotuuid1" 0 (some "/tmp/x.jpg") []).1 =
      Except.ok (some "/tmp/x.jpg") ∧
    (generate_thumbnail cC2 "shotuuid1" 0 (some "/tmp/x.jpg") []).2 =
      [Event.callRenderSnapshot ⟨"shotuuid1", 0, true⟩] ∧
    cC2.renderSnapshot ⟨"shotuuid1", 0, true⟩ =
      Except.ok ⟨some "text/html", true, [9]⟩ := by
  refine ⟨fun h => Option.noConfusion (Except.ok.inj h), rfl, rfl, rfl⟩

theorem C3_witness :
    Event.callSelectGroup "u2" ∈ (browse_project cC3 "P" (some "B") []).2 ∧
    targetOf [⟨"u1", "A", true, []⟩, ⟨"u2", "B", false, []⟩] (some "B") =
      some ⟨"u2", "B", false, []⟩ := by
  refine ⟨?_, by decide⟩
  exact ((C3_group_selection cC3 "P" (some "B") ⟨"S", "1", "2"⟩ ⟨"P", "m"⟩
    [⟨"u1", "A", true, []⟩, ⟨"u2", "B", false, []⟩] ⟨"u2", "B", false, []⟩
    rfl rfl rfl rfl rfl rfl).1 (by decide)).1

theorem C3_counterexample :
    Event.callSelectGroup "g2" ∈ (browse_project cC3x "P" (some "") []).2 ∧
    Event.callSelectGroup "g1" ∉ (browse_project cC3x "P" (some "") []).2 ∧
    cC3x.getGroups "ALL" =
      Except.ok [⟨"g1", "", true, []⟩, ⟨"g2", "B", false, []⟩] := by
  refine ⟨by decide, by decide, rfl⟩

theorem C4_witness :
    browse_project cC4 "P" none [] =
      (Except.ok false, [Event.callSystemInfo, Event.callProjectExit,
        Event.callProjectEnter "P", Event.callProjectsCurrent,
        Event.callGetGroups "ALL", Event.callSelectGroup "gidA"]) :=
  (C4_selectGroup_failure cC4 "P" none ⟨"S", "1", "2"⟩ ⟨"P", "m"⟩ [grpA] grpA
    ⟨500, "fail", none⟩ rfl rfl rfl rfl rfl rfl (by decide) rfl).1

theorem C5_witness :
    ((browse_project cC5 "P" none []).2.filter isSnapshotCall).length =
      min (flattenShots baseCon.slots).length 5 :=
  (C5_thumbnail_bound cC5 "P" none ⟨"S", "1", "2"⟩ ⟨"P", "m"⟩ [grpA] grpA grpA
    baseCon rfl rfl rfl rfl rfl rfl (by decide) rfl rfl
    (fun _ _ hEq => Except.noConfusion hEq)).2

theorem C6_witness :
    get_groups cC6b true [] = (Except.ok [], [Event.callGetGroups "ALL"]) ∧
    get_groups cC6 true [] =
      (Except.error (Exc.other attrErrMsg), [Event.callGetGroups "ALL"]) := by
  refine ⟨?_, ?_⟩
  · exact (C6_getGroups_failOpen cC6b true ⟨500, "fail", some "detail"⟩ rfl []).1
      "detail" rfl
  · exact (C6_getGroups_failOpen cC6 true ⟨500, "fail", none⟩ rfl []).2 rfl

theorem C6_counterexample :
    (get_groups cC6 true []).1 = Except.error (Exc.other attrErrMsg) ∧
    (get_groups cC6 true []).1 ≠ Except.ok [] := by
  refine ⟨rfl, fun h => Except.noConfusion h⟩

theorem C7_witness :
    enter_project cC7 "P" [] = (Except.error (Exc.api ⟨500, "fail", none⟩),
      [Event.callProjectExit, Event.callProjectEnter "P",
        Event.callProjectsCurrent]) ∧
    enter_project baseClient "P" [] = (Except.ok ⟨"P", "m"⟩,
      [Event.callProjectExit, Event.callProjectEnter "P",
        Event.callProjectsCurrent]) ∧
    enter_project cC7e "P" [] = (Except.error (Exc.api ⟨500, "fail", none⟩),
      [Event.callProjectExit, Event.callProjectEnter "P"]) := by
  refine ⟨?_, ?_, ?_⟩
  · exact (C7_enterProject cC7 "P" (Or.inl rfl) []).2.1 ⟨500, "fail", none⟩ rfl rfl
  · exact (C7_enterProject baseClient "P" (Or.inl rfl) []).2.2 ⟨"P", "m"⟩ rfl rfl
  · exact (C7_enterProject cC7e "P" (Or.inl rfl) []).1 ⟨500, "fail", none⟩ rfl

theorem C7_counterexample :
    (enter_project cC7 "P" []).1 = Except.error (Exc.api ⟨500, "fail", none⟩) ∧
    cC7.doProjectEnter "P" = Except.ok Unit.unit := ⟨rfl, rfl⟩

theorem C8_witness :
    (∃ pre, (browse_project cC8 "P" none []).2 =
      pre ++ [Event.callPlayerEnterCurrent, Event.callSetPlaymode playFrwLoop]) ∧
    playFrwLoop = ⟨reverseFramePlaybackMode, "LOOP", "ON", 1, false⟩ :=
  C8_player_playmode cC8 "P" none rfl

theorem C9_witness :
    (∃ k sh, ((shotsFromClient cC9).take 5)[k]? = some sh ∧
      "/tmp/project_thumb_0_shotuuid.jpg" = thumbLoopPath k sh.uuid) ∧
    (∃ rest, ("/tmp/project_thumb_0_shotuuid.jpg" : String) = "/tmp/" ++ rest) :=
  (C9_thumbnail_paths cC9 "P" none).1 "/tmp/project_thumb_0_shotuuid.jpg" [7]
    (by decide)

theorem C9_counterexample :
    Event.fsWrite "/tmp/project_thumb_0_shotuuid.jpg" [7] ∈
      (browse_project cC9 "P" none []).2 ∧
    cC9.now = "20250101_000000" ∧
    hasSeq cC9.now.toList "/tmp/project_thumb_0_shotuuid.jpg".toList = false := by
  refine ⟨by decide, rfl, by decide⟩

end ProjectExplorer
